import Mathlib

/-!
Verification development for the SDDM X11 user helper
(`src/helper-x11/xorguserhelper.cpp`).

The helper is embedded shallowly: each C++ member function becomes a pure
Lean function over an explicit `HelperState`, with a `World` record standing
for the outcomes the operating system supplies (pipe creation, process start
confirmation, bytes read from the handshake pipe, cookie write success,
grace-period expiry).  Every observable side effect (spawning a process,
writing to the inherited fd, calling `addCookie`, terminating or killing a
child, removing the authority file) is recorded as an `Event` in a trace, in
the order the source performs it.
-/

namespace SDDM

/-- Process environment, as an association list (`QProcessEnvironment`). -/
abbrev Env := List (String × String)

/-- `QProcessEnvironment::insert`: set `key` to `val`, replacing any previous
binding. -/
def envInsert (env : Env) (key val : String) : Env :=
  (key, val) :: env.filter (fun p => p.1 ≠ key)

/-- `QProcessEnvironment::value`: the value bound to `key` (the most recent
insertion wins, being at the head), or `""` when the variable is unset. -/
def envValue (env : Env) (key : String) : String :=
  match env with
  | [] => ""
  | p :: tl => if p.1 = key then p.2 else envValue tl key

/-- Which child process a spawn or termination event concerns.  The role is
determined by the call site in the source: `startServer` spawns the server,
`startClient` the client, `startDisplayCommand` the cursor command and the
display setup script, `displayFinished` the display stop script. -/
inductive Role
  | server
  | client
  | cursor
  | displayScript
  | stopScript
  deriving DecidableEq, Repr

/-- Observable side effects of the helper, in source order.
`spawn` records the command line, the environment handed to the process, and
whether the quit-on-fault exit observer (the lambda calling
`QCoreApplication::instance()->quit()` on non-zero or abnormal exit) was
connected to the process. -/
inductive Event
  | xauthSetup
  | spawn (role : Role) (cmd : String) (env : Env) (quitObserver : Bool)
  | closeFd (fd : Nat)
  | writeFd (fd : Int) (bytes : List Nat)
  | addCookie (display : String)
  | terminate (role : Role)
  | kill (role : Role)
  | removeAuthFile (path : String)
  deriving DecidableEq, Repr

/-- Outcomes supplied by the operating system and the configuration, fixed up
front so every helper function is a pure function of them. -/
structure World where
  /-- Ambient environment (`QProcessEnvironment::systemEnvironment()`). -/
  ambientEnv : Env
  /-- Whether `::pipe()` succeeds. -/
  pipeOk : Bool
  /-- `pipeFds[0]`, the read end of the handshake pipe. -/
  readFd : Nat
  /-- `pipeFds[1]`, the write end passed to the server via `-displayfd`. -/
  writeEndFd : Nat
  /-- Whether `waitForStarted(10000)` succeeds for the server process. -/
  serverStarted : Bool
  /-- Whether `QFile::open` on the read end succeeds. -/
  pipeOpenOk : Bool
  /-- The raw bytes `readLine()` returns from the handshake pipe. -/
  lineBytes : List Nat
  /-- Whether `XAuth::addCookie` succeeds. -/
  addCookieOk : Bool
  /-- Whether `waitForStarted` succeeds for the cursor command. -/
  cursorStarted : Bool
  /-- Whether the cursor command finishes within its 1 s grace period. -/
  cursorFinished : Bool
  /-- `mainConfig.X11.DisplayCommand.get()`. -/
  displayScriptCmd : String
  /-- Whether `waitForStarted` succeeds for the display setup script. -/
  displayScriptStarted : Bool
  /-- Whether the setup script finishes within its 30 s grace period. -/
  displayScriptFinished : Bool
  /-- Whether `waitForStarted` succeeds for the client process. -/
  clientStarted : Bool
  /-- `mainConfig.X11.DisplayStopCommand.get()`. -/
  stopScriptCmd : String
  /-- Whether `waitForStarted` succeeds for the display stop script. -/
  stopScriptStarted : Bool
  /-- Whether the stop script finishes within its 5 s grace period. -/
  stopScriptFinished : Bool
  /-- Whether the client exits within the 5 s grace of `stop()`. -/
  clientFinishedInTime : Bool
  /-- Whether the server exits within the 5 s grace of `stop()`. -/
  serverFinishedInTime : Bool
  deriving Repr

/-- The mutable members of `XOrgUserHelper`.  The `QProcess *` members are
abstracted to a liveness flag: `true` iff the member currently holds a
process handle (non-null pointer). -/
structure HelperState where
  m_fd : Int
  m_serverCmd : String
  m_clientCmd : String
  m_display : String
  /-- `m_xauth.authPath()`, fixed for the session. -/
  authPath : String
  m_serverProcess : Bool
  m_clientProcess : Bool
  deriving DecidableEq, Repr

/-- `XOrgUserHelper::startProcess`: split the command, connect the
quit-on-fault observer (always, before starting), start the process and wait
up to 10 s for start confirmation.  Returns whether `waitForStarted`
succeeded; the spawn event is recorded in either case because the process
was already started.  The out-parameter assignment `*p = process` is
performed by the caller on a `true` result. -/
def startProcess (role : Role) (cmd : String) (env : Env) (started : Bool) :
    Bool × List Event :=
  (started, [Event.spawn role cmd env true])

/-- ASCII for the byte `':'` prepended to the display number. -/
def byteColon : Nat := 58

/-- `QByteArray::remove(size()-1, 1)`: drop the final byte. -/
def removeLast (l : List Nat) : List Nat :=
  l.take (l.length - 1)

/-- `QString::fromLocal8Bit` on raw bytes, byte-per-character. -/
def bytesToString (l : List Nat) : String :=
  String.mk (l.map Char.ofNat)

/-- The display-name bytes the source derives from the raw handshake bytes:
`displayNumber.prepend(":")` followed by
`displayNumber.remove(displayNumber.size()-1, 1)`. -/
def resolveDisplayBytes (raw : List Nat) : List Nat :=
  removeLast (byteColon :: raw)

/-- The recorded display name: `QString::fromLocal8Bit` of the derived
bytes. -/
def resolveDisplay (raw : List Nat) : String :=
  bytesToString (resolveDisplayBytes raw)

/-- Modelled from the spec:
"On success, the digits are prefixed with `:` to form the canonical display
name (e.g., raw `7` → `:7`); trailing whitespace/newline is stripped before
prefixing."  This definition follows the spec's words (strip ALL trailing
whitespace, then prefix `:`) and is compared against `resolveDisplay`, which
is translated from the source. -/
def specResolveDisplay (raw : List Nat) : String :=
  ":" ++ bytesToString ((raw.reverse.dropWhile
    (fun b => b = 32 || b = 10 || b = 13 || b = 9)).reverse)

/-- `XOrgUserHelper::startServer`.  Returns whether it succeeded, the updated
member state, and the trace of side effects in source order. -/
def startServer (w : World) (s : HelperState) :
    Bool × HelperState × List Event :=
  if !w.pipeOk then
    (false, s, [])
  else
    let serverEnv := envInsert w.ambientEnv "XORG_RUN_AS_USER_OK" "1"
    let args : List String :=
      ["-auth", s.authPath,
       "-displayfd", toString w.writeEndFd,
       "vt" ++ envValue serverEnv "XDG_VTNR",
       "-logfile", "/dev/null"]
    let serverCmd := s.m_serverCmd ++ " " ++ String.intercalate " " args
    let s1 := { s with m_serverCmd := serverCmd }
    let (ok, ev1) := startProcess Role.server serverCmd serverEnv w.serverStarted
    if !ok then
      (false, s1, ev1 ++ [Event.closeFd w.readFd])
    else
      let s2 := { s1 with m_serverProcess := true }
      let ev2 := ev1 ++ [Event.closeFd w.writeEndFd]
      if !w.pipeOpenOk then
        (false, s2, ev2 ++ [Event.closeFd w.readFd])
      else
        let displayNumber := w.lineBytes
        if displayNumber.length < 2 then
          (false, s2, ev2 ++ [Event.closeFd w.readFd])
        else
          let dn := resolveDisplayBytes displayNumber
          let s3 := { s2 with m_display := bytesToString dn }
          let ev3 := ev2 ++ [Event.addCookie s3.m_display]
          if !w.addCookieOk then
            (false, s3, ev3)
          else
            let ev4 := ev3 ++
              (if s3.m_fd > 0 then [Event.writeFd s3.m_fd dn] else [])
            (true, s3, ev4 ++ [Event.closeFd w.readFd])

/-- `XOrgUserHelper::startDisplayCommand`: run the cursor command and the
display setup script, each best-effort, killing it if it overruns its grace
period.  Returns the trace only; no member state changes. -/
def startDisplayCommand (w : World) (s : HelperState) : List Event :=
  let env := envInsert (envInsert w.ambientEnv "DISPLAY" s.m_display)
    "XAUTHORITY" s.authPath
  let (ok1, ev1) :=
    startProcess Role.cursor "xsetroot -cursor_name left_ptr" env w.cursorStarted
  let evCursor := ev1 ++
    (if ok1 then (if !w.cursorFinished then [Event.kill Role.cursor] else [])
     else [])
  let (ok2, ev2) :=
    startProcess Role.displayScript w.displayScriptCmd env w.displayScriptStarted
  let evScript := ev2 ++
    (if ok2 then
      (if !w.displayScriptFinished then [Event.kill Role.displayScript] else [])
     else [])
  evCursor ++ evScript

/-- `XOrgUserHelper::displayFinished`: run the display stop script
best-effort, then remove the authority file. -/
def displayFinished (w : World) (s : HelperState) : List Event :=
  let env := envInsert (envInsert (envInsert w.ambientEnv "DISPLAY" s.m_display)
    "XAUTHORITY" s.authPath) "QT_QPA_PLATFORM" "xcb"
  let (ok, ev) :=
    startProcess Role.stopScript w.stopScriptCmd env w.stopScriptStarted
  (ev ++
    (if ok then
      (if !w.stopScriptFinished then [Event.kill Role.stopScript] else [])
     else [])) ++ [Event.removeAuthFile s.authPath]

/-- `XOrgUserHelper::startClient`. -/
def startClient (w : World) (s : HelperState) :
    Bool × HelperState × List Event :=
  let env := envInsert (envInsert w.ambientEnv "DISPLAY" s.m_display)
    "XAUTHORITY" s.authPath
  let (ok, ev) := startProcess Role.client s.m_clientCmd env w.clientStarted
  if ok then
    (true, { s with m_clientProcess := true }, ev)
  else
    (false, s, ev)

/-- `XOrgUserHelper::start`: xauth setup, server spawn + handshake, display
setup, client spawn. -/
def start (w : World) (s : HelperState) :
    Bool × HelperState × List Event :=
  let ev0 := [Event.xauthSetup]
  let (ok1, s1, ev1) := startServer w s
  if !ok1 then
    (false, s1, ev0 ++ ev1)
  else
    let ev2 := startDisplayCommand w s1
    let (ok3, s2, ev3) := startClient w s1
    (ok3, s2, ev0 ++ ev1 ++ ev2 ++ ev3)

/-- The `terminate(); if (!waitForFinished(5000)) kill();` pattern used by
`stop()` for the client and the server. -/
def terminateProc (role : Role) (finishedInTime : Bool) : List Event :=
  Event.terminate role ::
    (if finishedInTime then [] else [Event.kill role])

/-- `XOrgUserHelper::stop`: terminate the client if live, then the server if
live; when the server was live, additionally run `displayFinished`. -/
def stop (w : World) (s : HelperState) : HelperState × List Event :=
  let (s1, ev1) :=
    if s.m_clientProcess then
      ({ s with m_clientProcess := false },
       terminateProc Role.client w.clientFinishedInTime)
    else
      (s, [])
  if s1.m_serverProcess then
    let s2 := { s1 with m_serverProcess := false }
    (s2, ev1 ++ terminateProc Role.server w.serverFinishedInTime
      ++ displayFinished w s2)
  else
    (s1, ev1)

/-! ### Trace observations -/

/-- Spawn event for a given role. -/
def isSpawnOf (r : Role) : Event → Bool
  | Event.spawn r' _ _ _ => r' = r
  | _ => false

/-- Graceful-termination event for a given role. -/
def isTerminateOf (r : Role) : Event → Bool
  | Event.terminate r' => r' = r
  | _ => false

/-- Forced-kill event for a given role. -/
def isKillOf (r : Role) : Event → Bool
  | Event.kill r' => r' = r
  | _ => false

/-- Removal of the authority file. -/
def isRemoveAuth : Event → Bool
  | Event.removeAuthFile _ => true
  | _ => false

/-- Any write to the inherited report fd. -/
def isWriteFd : Event → Bool
  | Event.writeFd _ _ => true
  | _ => false

/-- Number of events in the trace satisfying `p`. -/
def countP (p : Event → Bool) (tr : List Event) : Nat :=
  (tr.filter p).length

/-- The byte vectors written to descriptor `fd`, in order. -/
def writesTo (fd : Int) : List Event → List (List Nat)
  | [] => []
  | Event.writeFd f b :: tr =>
      if f = fd then b :: writesTo fd tr else writesTo fd tr
  | _ :: tr => writesTo fd tr

/-- `before p q tr`: some event satisfying `p` occurs in `tr`, strictly
before the first event satisfying `q`, and an event satisfying `q` occurs
after it. -/
def before (p q : Event → Bool) : List Event → Bool
  | [] => false
  | e :: tr => if p e then tr.any q else if q e then false else before p q tr

/-- The `(cmd, env, quitObserver)` payloads of all server spawn events in a
trace. -/
def serverSpawnsIn (tr : List Event) : List (String × Env × Bool) :=
  tr.filterMap fun e =>
    match e with
    | Event.spawn Role.server c v b => some (c, v, b)
    | _ => none

/-- `true` for a non-spawn event, and for a spawn event exactly when the
quit-on-fault observer was attached to the spawned process. -/
def spawnObserved : Event → Bool
  | Event.spawn _ _ _ b => b
  | _ => true

/-- `true` iff every spawn event in the trace has the quit-on-fault observer
attached. -/
def allSpawnsObserved (tr : List Event) : Bool :=
  tr.all spawnObserved

/-- The claim that the quit-on-fault observer is attached only to the server
and the client process, never to an auxiliary one. -/
def quitObserverOnlyCore (tr : List Event) : Prop :=
  ∀ r c e b, Event.spawn r c e b ∈ tr → b = true →
    (r = Role.server ∨ r = Role.client)

/-- The server command line as the claim words it: the supplied command with
`' -auth <authorityPath> -displayfd <writeEndFd> vt<XDG_VTNR> -logfile
/dev/null'` appended. -/
def claimedServerCmd (w : World) (s : HelperState) : String :=
  s.m_serverCmd ++ " -auth " ++ s.authPath ++ " -displayfd "
    ++ toString w.writeEndFd ++ " vt" ++ envValue w.ambientEnv "XDG_VTNR"
    ++ " -logfile /dev/null"

/-! ### Concrete scenario used by counterexamples and witnesses -/

/-- A run in which every OS interaction succeeds and the server reports
display number 7 (raw handshake bytes `"7\n"`). -/
def sampleWorld : World where
  ambientEnv := [("XDG_VTNR", "2"), ("PATH", "/usr/bin")]
  pipeOk := true
  readFd := 4
  writeEndFd := 5
  serverStarted := true
  pipeOpenOk := true
  lineBytes := [55, 10]
  addCookieOk := true
  cursorStarted := true
  cursorFinished := true
  displayScriptCmd := "/usr/share/sddm/scripts/Xsetup"
  displayScriptStarted := true
  displayScriptFinished := true
  clientStarted := true
  stopScriptCmd := "/usr/share/sddm/scripts/Xstop"
  stopScriptStarted := true
  stopScriptFinished := true
  clientFinishedInTime := true
  serverFinishedInTime := true

/-- Initial member state: report fd 3, no live children. -/
def sampleState : HelperState where
  m_fd := 3
  m_serverCmd := "/usr/bin/X"
  m_clientCmd := "startplasma-x11"
  m_display := ":0"
  authPath := "/run/user/1000/xauth_abc"
  m_serverProcess := false
  m_clientProcess := false

/-! ## Helper lemmas -/

theorem spawns_observed_startServer (w : World) (s : HelperState) :
    allSpawnsObserved (startServer w s).2.2 = true := by
  by_cases hl : w.lineBytes.length < 2 <;>
  by_cases hf : 0 < s.m_fd <;>
  cases hp : w.pipeOk <;> cases hs : w.serverStarted <;>
  cases ho : w.pipeOpenOk <;> cases hc : w.addCookieOk <;>
  simp [startServer, startProcess, allSpawnsObserved, spawnObserved,
    hl, hf, hp, hs, ho, hc]

theorem spawns_observed_startDisplayCommand (w : World) (s : HelperState) :
    allSpawnsObserved (startDisplayCommand w s) = true := by
  cases h1 : w.cursorStarted <;> cases h2 : w.cursorFinished <;>
  cases h3 : w.displayScriptStarted <;> cases h4 : w.displayScriptFinished <;>
  simp [startDisplayCommand, startProcess, allSpawnsObserved, spawnObserved,
    h1, h2, h3, h4]

theorem spawns_observed_startClient (w : World) (s : HelperState) :
    allSpawnsObserved (startClient w s).2.2 = true := by
  cases h : w.clientStarted <;>
  simp [startClient, startProcess, allSpawnsObserved, spawnObserved, h]

theorem spawns_observed_displayFinished (w : World) (s : HelperState) :
    allSpawnsObserved (displayFinished w s) = true := by
  cases h1 : w.stopScriptStarted <;> cases h2 : w.stopScriptFinished <;>
  simp [displayFinished, startProcess, allSpawnsObserved, spawnObserved, h1, h2]

theorem allSpawnsObserved_append (a b : List Event) :
    allSpawnsObserved (a ++ b) = (allSpawnsObserved a && allSpawnsObserved b) := by
  simp [allSpawnsObserved]

theorem allSpawnsObserved_nil : allSpawnsObserved [] = true := rfl

theorem allSpawnsObserved_cons (e : Event) (tr : List Event) :
    allSpawnsObserved (e :: tr) = (spawnObserved e && allSpawnsObserved tr) := by
  simp [allSpawnsObserved]

/-! ## Claims -/

/-- C1 counterexample: the claim says the quit-on-fault exit observer is
attached only to the server and client processes, never to auxiliary ones.
In the run `sampleWorld`/`sampleState`, where everything succeeds, the trace
of `start` contains a spawn of the auxiliary cursor process
(`xsetroot -cursor_name left_ptr`) with the quit-on-fault observer attached,
because `startProcess` connects that observer unconditionally. -/
theorem C1_counterexample :
    ¬ quitObserverOnlyCore (start sampleWorld sampleState).2.2 := by
  intro h
  have hmem : Event.spawn Role.cursor "xsetroot -cursor_name left_ptr"
      [("XAUTHORITY", "/run/user/1000/xauth_abc"), ("DISPLAY", ":7"),
       ("XDG_VTNR", "2"), ("PATH", "/usr/bin")] true
      ∈ (start sampleWorld sampleState).2.2 := by decide
  have := h _ _ _ _ hmem rfl
  simp at this

/-- C1 (amended): `startProcess` attaches the quit-on-fault exit observer to
EVERY process it spawns — the auxiliary cursor command and the display
setup/teardown scripts included — so a non-zero or abnormal exit of any of
them triggers the application-quit call.  Formally: in every trace of
`start` or `stop`, every spawn event carries the observer. -/
theorem C1_quit_observer_on_every_spawn (w : World) (s : HelperState) :
    allSpawnsObserved (start w s).2.2 = true ∧
    allSpawnsObserved (stop w s).2 = true := by
  constructor
  · unfold start
    cases hs : (startServer w s).1 <;>
    simp [hs, allSpawnsObserved_cons, allSpawnsObserved_append,
      spawns_observed_startServer, spawns_observed_startDisplayCommand,
      spawns_observed_startClient, spawnObserved]
  · unfold stop terminateProc
    cases h1 : s.m_clientProcess <;> cases h2 : s.m_serverProcess <;>
    cases h3 : w.clientFinishedInTime <;> cases h4 : w.serverFinishedInTime <;>
    simp [h1, h2, h3, h4, allSpawnsObserved_cons, allSpawnsObserved_append,
      allSpawnsObserved_nil, spawns_observed_displayFinished, spawnObserved]

theorem startServer_success_conditions (w : World) (s : HelperState)
    (h : (startServer w s).1 = true) :
    w.pipeOk = true ∧ w.serverStarted = true ∧ w.pipeOpenOk = true ∧
    ¬ w.lineBytes.length < 2 ∧ w.addCookieOk = true := by
  by_cases hl : w.lineBytes.length < 2 <;>
  cases hp : w.pipeOk <;> cases hs : w.serverStarted <;>
  cases ho : w.pipeOpenOk <;> cases hc : w.addCookieOk <;>
  simp [startServer, startProcess, hl, hp, hs, ho, hc] at h ⊢

theorem writesTo_append (fd : Int) (a b : List Event) :
    writesTo fd (a ++ b) = writesTo fd a ++ writesTo fd b := by
  induction a with
  | nil => simp [writesTo]
  | cons e tr ih =>
      cases e <;> simp [writesTo, ih] <;> split <;> simp [ih]

theorem writesTo_startDisplayCommand (fd : Int) (w : World) (s : HelperState) :
    writesTo fd (startDisplayCommand w s) = [] := by
  cases h1 : w.cursorStarted <;> cases h2 : w.cursorFinished <;>
  cases h3 : w.displayScriptStarted <;> cases h4 : w.displayScriptFinished <;>
  simp [startDisplayCommand, startProcess, writesTo, h1, h2, h3, h4]

theorem writesTo_startClient (fd : Int) (w : World) (s : HelperState) :
    writesTo fd (startClient w s).2.2 = [] := by
  cases h : w.clientStarted <;>
  simp [startClient, startProcess, writesTo, h]

theorem writesTo_startServer_le_one (fd : Int) (w : World) (s : HelperState) :
    (writesTo fd (startServer w s).2.2).length ≤ 1 := by
  by_cases hl : w.lineBytes.length < 2 <;>
  by_cases hf : 0 < s.m_fd <;>
  cases hp : w.pipeOk <;> cases hs : w.serverStarted <;>
  cases ho : w.pipeOpenOk <;> cases hc : w.addCookieOk <;>
  simp [startServer, startProcess, writesTo, hl, hf, hp, hs, ho, hc] <;>
  (repeat' split) <;> simp [writesTo]

theorem writesTo_start_le_one (fd : Int) (w : World) (s : HelperState) :
    (writesTo fd (start w s).2.2).length ≤ 1 := by
  unfold start
  cases hs : (startServer w s).1 <;>
  simp [hs, writesTo, writesTo_append, writesTo_startDisplayCommand,
    writesTo_startClient, writesTo_startServer_le_one] <;>
  (repeat' split) <;> simp [writesTo, writesTo_startServer_le_one]

/-- C2 counterexample: the claim says the bytes written to the ControlChannel
fd are the raw pipe bytes (digits plus line terminator, no `':'` prefix, the
terminator preserved).  In the run `sampleWorld` (raw handshake bytes
`"7\n"` = `[55, 10]`, report fd 3) the single write to fd 3 carries
`[58, 55]` — the bytes `":7"`, with the `':'` prefix and the terminator
stripped — and the raw bytes `[55, 10]` are never written. -/
theorem C2_counterexample :
    sampleWorld.lineBytes = [55, 10] ∧
    writesTo 3 (start sampleWorld sampleState).2.2 = [[58, 55]] ∧
    Event.writeFd 3 [55, 10] ∉ (start sampleWorld sampleState).2.2 := by
  decide

/-- C2 (amended): on every successful handshake with a positive report fd,
the bytes written once to the ControlChannel fd are the resolved
display-name bytes — `':'` prepended to the raw bytes with the final
(line-terminator) byte removed — not the raw bytes themselves; and no fd
ever receives more than one write per session. -/
theorem C2_report_is_display_name (w : World) (s : HelperState)
    (h : (startServer w s).1 = true) (hfd : 0 < s.m_fd) :
    writesTo s.m_fd (start w s).2.2 = [resolveDisplayBytes w.lineBytes] ∧
    ∀ fd, (writesTo fd (start w s).2.2).length ≤ 1 := by
  refine ⟨?_, fun fd => writesTo_start_le_one fd w s⟩
  obtain ⟨hp, hs, ho, hl, hc⟩ := startServer_success_conditions w s h
  unfold start
  simp [h, startServer, startProcess, hp, hs, ho, hl, hc, hfd,
    writesTo_append, writesTo_startDisplayCommand, writesTo_startClient, writesTo]
  refine ⟨?_, ?_⟩ <;> (repeat' split) <;> simp [writesTo]

/-- C2 witness: `C2_report_is_display_name` applied to the concrete
successful run `sampleWorld`/`sampleState` (report fd 3). -/
theorem C2_report_is_display_name_witness :
    (startServer sampleWorld sampleState).1 = true ∧
    (0 : Int) < sampleState.m_fd ∧
    (writesTo sampleState.m_fd (start sampleWorld sampleState).2.2 =
      [resolveDisplayBytes sampleWorld.lineBytes] ∧
     ∀ fd, (writesTo fd (start sampleWorld sampleState).2.2).length ≤ 1) :=
  ⟨by decide, by decide,
   C2_report_is_display_name sampleWorld sampleState (by decide) (by decide)⟩

/-- C3: if the handshake read yields fewer than 2 raw bytes, `start` returns
failure, `addCookie` is never called, and the client process is never
spawned. -/
theorem C3_short_handshake_fails (w : World) (s : HelperState)
    (h : w.lineBytes.length < 2) :
    (start w s).1 = false ∧
    (∀ d, Event.addCookie d ∉ (start w s).2.2) ∧
    (∀ c e b, Event.spawn Role.client c e b ∉ (start w s).2.2) := by
  cases hp : w.pipeOk <;> cases hs : w.serverStarted <;> cases ho : w.pipeOpenOk <;>
  simp [start, startServer, startProcess, h, hp, hs, ho]

/-- C3 witness: `C3_short_handshake_fails` on the run where the server wrote
only a lone line terminator (raw bytes `[10]`). -/
theorem C3_short_handshake_fails_witness :
    ({ sampleWorld with lineBytes := [10] } : World).lineBytes.length < 2 ∧
    ((start { sampleWorld with lineBytes := [10] } sampleState).1 = false ∧
     (∀ d, Event.addCookie d ∉
        (start { sampleWorld with lineBytes := [10] } sampleState).2.2) ∧
     (∀ c e b, Event.spawn Role.client c e b ∉
        (start { sampleWorld with lineBytes := [10] } sampleState).2.2)) :=
  ⟨by decide,
   C3_short_handshake_fails { sampleWorld with lineBytes := [10] } sampleState
     (by decide)⟩

/-- The run `sampleWorld` with authority-cookie issuance failing. -/
def cookieFailWorld : World := { sampleWorld with addCookieOk := false }

/-- The run `sampleWorld` with raw handshake bytes `"7 \n"` = `[55, 32, 10]`
(a digit, a trailing space, the line terminator). -/
def spacedWorld : World := { sampleWorld with lineBytes := [55, 32, 10] }

/-- C4 counterexample: the claim says that when authority issuance fails
after the server has been spawned, the server is terminated before `start`
surfaces the failure.  In the run `cookieFailWorld` the server is spawned
(exactly one server spawn event), `addCookie` fails, `start` returns
failure — and the trace of `start` contains no graceful termination and no
forced kill of the server: `startServer` just returns `false` on the
`addCookie` failure path. -/
theorem C4_counterexample :
    (start cookieFailWorld sampleState).1 = false ∧
    countP (isSpawnOf Role.server) (start cookieFailWorld sampleState).2.2 = 1 ∧
    Event.terminate Role.server ∉ (start cookieFailWorld sampleState).2.2 ∧
    Event.kill Role.server ∉ (start cookieFailWorld sampleState).2.2 := by
  decide

/-- C4 (amended): when authority issuance fails after the server spawn,
`start` returns failure with the server process still live
(`m_serverProcess` remains set) and without terminating or killing it; the
spawned server is only terminated by the later, separate `stop()` call made
during application shutdown. -/
theorem C4_cookie_failure_leaves_server_live (w w' : World) (s : HelperState)
    (hp : w.pipeOk = true) (hs : w.serverStarted = true) (ho : w.pipeOpenOk = true)
    (hl : ¬ w.lineBytes.length < 2) (hc : w.addCookieOk = false) :
    (start w s).1 = false ∧
    (start w s).2.1.m_serverProcess = true ∧
    Event.terminate Role.server ∉ (start w s).2.2 ∧
    Event.kill Role.server ∉ (start w s).2.2 ∧
    Event.terminate Role.server ∈ (stop w' (start w s).2.1).2 := by
  cases hcl : s.m_clientProcess <;>
  simp [start, startServer, startProcess, hp, hs, ho, hl, hc, hcl,
    stop, terminateProc, displayFinished]

/-- C4 witness: `C4_cookie_failure_leaves_server_live` on the concrete run
`cookieFailWorld`. -/
theorem C4_cookie_failure_leaves_server_live_witness :
    (cookieFailWorld.pipeOk = true ∧ cookieFailWorld.serverStarted = true ∧
     cookieFailWorld.pipeOpenOk = true ∧
     ¬ cookieFailWorld.lineBytes.length < 2 ∧
     cookieFailWorld.addCookieOk = false) ∧
    ((start cookieFailWorld sampleState).1 = false ∧
     (start cookieFailWorld sampleState).2.1.m_serverProcess = true ∧
     Event.terminate Role.server ∉ (start cookieFailWorld sampleState).2.2 ∧
     Event.kill Role.server ∉ (start cookieFailWorld sampleState).2.2 ∧
     Event.terminate Role.server ∈
       (stop sampleWorld (start cookieFailWorld sampleState).2.1).2) :=
  ⟨by decide,
   C4_cookie_failure_leaves_server_live cookieFailWorld sampleWorld sampleState
     (by decide) (by decide) (by decide) (by decide) (by decide)⟩

theorem resolveDisplayBytes_concat (digits : List Nat) (t : Nat) :
    resolveDisplayBytes (digits ++ [t]) = byteColon :: digits := by
  unfold resolveDisplayBytes removeLast
  rw [← List.dropLast_eq_take, ← List.cons_append, List.dropLast_concat]

theorem bytesToString_colon_cons (l : List Nat) :
    bytesToString (byteColon :: l) = ":" ++ bytesToString l := by
  have h : Char.ofNat byteColon = ':' := by decide
  apply String.ext
  simp [bytesToString, String.data_append, h]

theorem removeLast_concat (l : List Nat) (t : Nat) : removeLast (l ++ [t]) = l := by
  unfold removeLast
  rw [← List.dropLast_eq_take, List.dropLast_concat]

theorem start_display_of_success (w : World) (s : HelperState)
    (hsrv : (startServer w s).1 = true) :
    (start w s).2.1.m_display = resolveDisplay w.lineBytes := by
  obtain ⟨hp, hs, ho, hl, hc⟩ := startServer_success_conditions w s hsrv
  cases hcl : w.clientStarted <;>
  simp [start, startServer, startProcess, startClient, resolveDisplay,
    hp, hs, ho, hl, hc, hcl]

/-- C5 counterexample: the claim says that for ANY successful read the
result is `':'` prepended to the TRIMMED bytes.  In the run `spacedWorld`
the handshake bytes are `"7 \n"`; the code removes only the single final
byte, recording `":7 "` (trailing space kept), while the spec-worded
`specResolveDisplay` (strip all trailing whitespace, then prefix) yields
`":7"`. -/
theorem C5_counterexample :
    (start spacedWorld sampleState).1 = true ∧
    (start spacedWorld sampleState).2.1.m_display = ":7 " ∧
    specResolveDisplay spacedWorld.lineBytes = ":7" ∧
    (start spacedWorld sampleState).2.1.m_display ≠
      specResolveDisplay spacedWorld.lineBytes := by
  decide

/-- C5 (amended): the recorded display name is `':'` followed by the raw
bytes with exactly the final byte removed.  When the raw bytes are some
digits followed by a single line-terminator byte this equals `':'` followed
by the digits (e.g., `"7\n"` resolves to `":7"`); in general only the one
final byte is stripped, not all trailing whitespace. -/
theorem C5_display_resolution (w : World) (s : HelperState) (digits : List Nat)
    (hbytes : w.lineBytes = digits ++ [10])
    (hsrv : (startServer w s).1 = true) :
    (start w s).2.1.m_display = ":" ++ bytesToString digits ∧
    resolveDisplay w.lineBytes = ":" ++ bytesToString (removeLast w.lineBytes) := by
  rw [start_display_of_success w s hsrv, hbytes]
  unfold resolveDisplay
  rw [resolveDisplayBytes_concat, bytesToString_colon_cons, removeLast_concat]
  exact ⟨rfl, rfl⟩

/-- C5 witness: `C5_display_resolution` on the run `sampleWorld`, raw bytes
`"7\n" = [55] ++ [10]`, resolving to `":7"`. -/
theorem C5_display_resolution_witness :
    sampleWorld.lineBytes = [55] ++ [10] ∧
    (startServer sampleWorld sampleState).1 = true ∧
    ((start sampleWorld sampleState).2.1.m_display = ":" ++ bytesToString [55] ∧
     resolveDisplay sampleWorld.lineBytes =
       ":" ++ bytesToString (removeLast sampleWorld.lineBytes)) :=
  ⟨by decide, by decide,
   C5_display_resolution sampleWorld sampleState [55] (by decide) (by decide)⟩

/-- Member state with both children live, as after a fully successful
`start`. -/
def runningState : HelperState :=
  { sampleState with m_serverProcess := true, m_clientProcess := true }

/-- C6: during `stop`, termination of the client (when live) precedes
termination of the server; and whenever the server was live, server
termination precedes the spawn of the display-teardown script, which
precedes removal of the authority file. -/
theorem C6_stop_ordering (w : World) (s : HelperState)
    (hs : s.m_serverProcess = true) :
    (s.m_clientProcess = true →
      before (isTerminateOf Role.client) (isTerminateOf Role.server)
        (stop w s).2 = true) ∧
    before (isTerminateOf Role.server) (isSpawnOf Role.stopScript)
      (stop w s).2 = true ∧
    before (isSpawnOf Role.stopScript) isRemoveAuth (stop w s).2 = true := by
  cases hc : s.m_clientProcess <;>
  cases h1 : w.clientFinishedInTime <;> cases h2 : w.serverFinishedInTime <;>
  cases h3 : w.stopScriptStarted <;> cases h4 : w.stopScriptFinished <;>
  simp [stop, terminateProc, displayFinished, startProcess, hs, hc, h1, h2, h3, h4,
    before, isTerminateOf, isSpawnOf, isKillOf, isRemoveAuth]

/-- C6 witness: `C6_stop_ordering` on `sampleWorld` with both children
live. -/
theorem C6_stop_ordering_witness :
    runningState.m_serverProcess = true ∧
    ((runningState.m_clientProcess = true →
      before (isTerminateOf Role.client) (isTerminateOf Role.server)
        (stop sampleWorld runningState).2 = true) ∧
     before (isTerminateOf Role.server) (isSpawnOf Role.stopScript)
       (stop sampleWorld runningState).2 = true ∧
     before (isSpawnOf Role.stopScript) isRemoveAuth
       (stop sampleWorld runningState).2 = true) :=
  ⟨by decide, C6_stop_ordering sampleWorld runningState (by decide)⟩

/-- C7: `stop` is idempotent.  A second `stop` right after a first one
changes nothing and produces an empty trace; across the two calls the
teardown script is spawned at most once and the authority file is removed at
most once; and `stop` on a session whose handles are both clear (never
started, or already stopped) is a no-op. -/
theorem C7_stop_idempotent (w w' : World) (s : HelperState) :
    stop w' (stop w s).1 = ((stop w s).1, []) ∧
    countP (isSpawnOf Role.stopScript)
      ((stop w s).2 ++ (stop w' (stop w s).1).2) ≤ 1 ∧
    countP isRemoveAuth ((stop w s).2 ++ (stop w' (stop w s).1).2) ≤ 1 ∧
    stop w { s with m_serverProcess := false, m_clientProcess := false } =
      ({ s with m_serverProcess := false, m_clientProcess := false }, []) := by
  cases hc : s.m_clientProcess <;> cases h2 : s.m_serverProcess <;>
  cases h1 : w.clientFinishedInTime <;> cases h3 : w.serverFinishedInTime <;>
  cases h4 : w.stopScriptStarted <;> cases h5 : w.stopScriptFinished <;>
  simp [stop, terminateProc, displayFinished, startProcess, countP,
    hc, h1, h2, h3, h4, h5, isSpawnOf, isRemoveAuth]

/-- C8: for each live supervised process, `stop`'s
`terminate(); waitForFinished(5000) || kill()` pattern performs no forced
kill when the process exits within the grace period, and exactly one forced
kill when it does not. -/
theorem C8_grace_then_kill (w : World) (s : HelperState)
    (hc : s.m_clientProcess = true) (hs : s.m_serverProcess = true) :
    countP (isKillOf Role.client) (stop w s).2 =
      (if w.clientFinishedInTime then 0 else 1) ∧
    countP (isKillOf Role.server) (stop w s).2 =
      (if w.serverFinishedInTime then 0 else 1) := by
  cases h1 : w.clientFinishedInTime <;> cases h2 : w.serverFinishedInTime <;>
  cases h3 : w.stopScriptStarted <;> cases h4 : w.stopScriptFinished <;>
  simp [stop, terminateProc, displayFinished, startProcess, countP,
    hc, hs, h1, h2, h3, h4, isKillOf]

/-- C8 witness: `C8_grace_then_kill` on a run where the client ignores the
graceful stop (one forced kill) and the server exits in time (no forced
kill). -/
theorem C8_grace_then_kill_witness :
    runningState.m_clientProcess = true ∧
    runningState.m_serverProcess = true ∧
    (countP (isKillOf Role.client)
       (stop { sampleWorld with clientFinishedInTime := false } runningState).2 =
      (if ({ sampleWorld with clientFinishedInTime := false } : World).clientFinishedInTime
       then 0 else 1) ∧
     countP (isKillOf Role.server)
       (stop { sampleWorld with clientFinishedInTime := false } runningState).2 =
      (if ({ sampleWorld with clientFinishedInTime := false } : World).serverFinishedInTime
       then 0 else 1)) :=
  ⟨by decide, by decide,
   C8_grace_then_kill { sampleWorld with clientFinishedInTime := false }
     runningState (by decide) (by decide)⟩

theorem countP_append (p : Event → Bool) (a b : List Event) :
    countP p (a ++ b) = countP p a + countP p b := by
  simp [countP]

theorem no_write_startDisplayCommand (w : World) (s : HelperState) :
    countP isWriteFd (startDisplayCommand w s) = 0 := by
  cases h1 : w.cursorStarted <;> cases h2 : w.cursorFinished <;>
  cases h3 : w.displayScriptStarted <;> cases h4 : w.displayScriptFinished <;>
  simp [startDisplayCommand, startProcess, countP, isWriteFd, h1, h2, h3, h4]

theorem no_write_startClient (w : World) (s : HelperState) :
    countP isWriteFd (startClient w s).2.2 = 0 := by
  cases h : w.clientStarted <;>
  simp [startClient, startProcess, countP, isWriteFd, h]

theorem no_write_startServer (w : World) (s : HelperState) (hf : ¬ 0 < s.m_fd) :
    countP isWriteFd (startServer w s).2.2 = 0 := by
  by_cases hl : w.lineBytes.length < 2 <;>
  cases hp : w.pipeOk <;> cases hs : w.serverStarted <;>
  cases ho : w.pipeOpenOk <;> cases hc : w.addCookieOk <;>
  simp [startServer, startProcess, countP, isWriteFd, hl, hf, hp, hs, ho, hc]

/-- C9: the report is a no-op for every fd value ≤ 0, not only for the
documented absent/`-1` value — the guard is `m_fd > 0`, so a report fd of
exactly `0` is also treated as "none provided" and nothing is ever written
to it. -/
theorem C9_nonpositive_fd_never_written (w : World) (s : HelperState)
    (h : s.m_fd ≤ 0) :
    countP isWriteFd (start w s).2.2 = 0 := by
  have h1 := no_write_startServer w s (by omega)
  have h2 := no_write_startDisplayCommand w (startServer w s).2.1
  have h3 := no_write_startClient w (startServer w s).2.1
  unfold start
  cases hs : (startServer w s).1 <;>
  simp_all [countP, isWriteFd]

/-- C9 witness: `C9_nonpositive_fd_never_written` with report fd exactly
`0`, in the otherwise fully successful run `sampleWorld`. -/
theorem C9_nonpositive_fd_never_written_witness :
    ({ sampleState with m_fd := 0 } : HelperState).m_fd ≤ 0 ∧
    countP isWriteFd
      (start sampleWorld { sampleState with m_fd := 0 }).2.2 = 0 :=
  ⟨by decide,
   C9_nonpositive_fd_never_written sampleWorld { sampleState with m_fd := 0 }
     (by decide)⟩

theorem envValue_filter_ne (env : Env) (k k' : String) (h : k' ≠ k) :
    envValue (env.filter (fun p => p.1 ≠ k)) k' = envValue env k' := by
  induction env with
  | nil => rfl
  | cons a tl ih =>
      rw [List.filter_cons]
      by_cases ha : a.1 = k
      · rw [if_neg (by simp [ha])]
        rw [show envValue (a :: tl) k' = envValue tl k' from ?_]
        · exact ih
        · rw [envValue, if_neg (by rw [ha]; exact fun e => h e.symm)]
      · rw [if_pos (by simp [ha])]
        by_cases hk2 : a.1 = k'
        · rw [envValue, envValue, if_pos hk2, if_pos hk2]
        · rw [envValue, envValue, if_neg hk2, if_neg hk2]
          exact ih

theorem envValue_envInsert_ne (env : Env) (k v k' : String) (h : k' ≠ k) :
    envValue (envInsert env k v) k' = envValue env k' := by
  unfold envInsert
  rw [envValue, if_neg (fun e => h e.symm)]
  exact envValue_filter_ne env k k' h

theorem serverCmd_eq (w : World) (s : HelperState) :
    s.m_serverCmd ++ " " ++ String.intercalate " "
      ["-auth", s.authPath, "-displayfd", toString w.writeEndFd,
       "vt" ++ envValue (envInsert w.ambientEnv "XORG_RUN_AS_USER_OK" "1") "XDG_VTNR",
       "-logfile", "/dev/null"] = claimedServerCmd w s := by
  rw [envValue_envInsert_ne _ _ _ _ (by decide)]
  unfold claimedServerCmd
  apply String.ext
  simp [String.intercalate, String.intercalate.go, String.data_append]

theorem serverSpawnsIn_xauth_cons (tr : List Event) :
    serverSpawnsIn (Event.xauthSetup :: tr) = serverSpawnsIn tr := by
  simp [serverSpawnsIn]

theorem serverSpawnsIn_append (a b : List Event) :
    serverSpawnsIn (a ++ b) = serverSpawnsIn a ++ serverSpawnsIn b := by
  simp [serverSpawnsIn]

theorem serverSpawnsIn_startDisplayCommand (w : World) (s : HelperState) :
    serverSpawnsIn (startDisplayCommand w s) = [] := by
  cases h1 : w.cursorStarted <;> cases h2 : w.cursorFinished <;>
  cases h3 : w.displayScriptStarted <;> cases h4 : w.displayScriptFinished <;>
  simp [startDisplayCommand, startProcess, serverSpawnsIn, h1, h2, h3, h4]

theorem serverSpawnsIn_startClient (w : World) (s : HelperState) :
    serverSpawnsIn (startClient w s).2.2 = [] := by
  cases h : w.clientStarted <;>
  simp [startClient, startProcess, serverSpawnsIn, h]

theorem serverSpawnsIn_startServer (w : World) (s : HelperState)
    (hp : w.pipeOk = true) :
    serverSpawnsIn (startServer w s).2.2 =
      [(claimedServerCmd w s, envInsert w.ambientEnv "XORG_RUN_AS_USER_OK" "1", true)] := by
  rw [← serverCmd_eq w s]
  by_cases hl : w.lineBytes.length < 2 <;>
  by_cases hf : 0 < s.m_fd <;>
  cases hs : w.serverStarted <;>
  cases ho : w.pipeOpenOk <;> cases hc : w.addCookieOk <;>
  simp [startServer, startProcess, serverSpawnsIn, hp, hl, hf, hs, ho, hc]

/-- C10: whenever the pipe is created, `start` spawns exactly one server
process; its command line is never the caller-supplied string as-is but that
string with `' -auth <authorityPath> -displayfd <writeEndFd> vt<XDG_VTNR>
-logfile /dev/null'` appended, and its environment is the ambient
environment with `XORG_RUN_AS_USER_OK=1` overlaid. -/
theorem C10_server_command_and_env (w : World) (s : HelperState)
    (hp : w.pipeOk = true) :
    serverSpawnsIn (start w s).2.2 =
      [(claimedServerCmd w s, envInsert w.ambientEnv "XORG_RUN_AS_USER_OK" "1", true)] ∧
    claimedServerCmd w s ≠ s.m_serverCmd := by
  constructor
  · unfold start
    cases hs : (startServer w s).1 <;>
    simp [hs, serverSpawnsIn_xauth_cons, serverSpawnsIn_append,
      serverSpawnsIn_startDisplayCommand, serverSpawnsIn_startClient,
      serverSpawnsIn_startServer w s hp]
  · intro heq
    have hlen := congrArg String.length heq
    simp [claimedServerCmd, String.length_append] at hlen
    have h7 : (" -auth ").length = 7 := rfl
    omega

/-- C10 witness: `C10_server_command_and_env` on the concrete run
`sampleWorld`/`sampleState`. -/
theorem C10_server_command_and_env_witness :
    sampleWorld.pipeOk = true ∧
    (serverSpawnsIn (start sampleWorld sampleState).2.2 =
      [(claimedServerCmd sampleWorld sampleState,
        envInsert sampleWorld.ambientEnv "XORG_RUN_AS_USER_OK" "1", true)] ∧
     claimedServerCmd sampleWorld sampleState ≠ sampleState.m_serverCmd) :=
  ⟨by decide, C10_server_command_and_env sampleWorld sampleState (by decide)⟩

end SDDM
